import Mathlib

/-!
# Hybrid Video Orchestrator — verification of the EDL pipeline

Shallow embedding of the core of `funwithaistudio-tech/hybrid-video-orchestrator`:
the EDL builder and asset fan-out orchestrator (`src/controller.js`) and the
per-clip render command construction and Ken Burns effect parametrization
(`src/entrypoint.js`).

Modelling conventions:
* JavaScript numbers are modelled as exact rationals `ℚ`; the values reaching
  the embedded code paths (durations, zoom/pan parameters, dimensions) are
  ordinary finite numbers and none of the verified properties depend on
  floating-point rounding.
* A possibly-`undefined` JS value is an `Option`; JS truthiness tests on
  numbers (`x || d`) treat `0` like `undefined`, on strings they treat `""`
  like `undefined`; both are modelled explicitly below.
* JS objects that act as string-keyed maps are association lists
  (`List (String × Asset)`), looked up with `List.lookup`.
* Fallible async operations are `Except String` values; `Promise.all`'s
  settle/abort behaviour is modelled by `promiseAll` (whether the join
  rejects is independent of timing: it rejects iff some member rejects).
* The ffmpeg expression strings built by `generateKenBurnsFilter` are
  modelled by the real-valued functions of time they denote, and the filter
  strings assembled by `renderClip` by a structured `VFilter` datatype.
-/

set_option autoImplicit false

namespace HVO

/-- JS `x || d` for a possibly-undefined number: `undefined` and `0` are falsy. -/
def truthyOrQ (x : Option ℚ) (d : ℚ) : ℚ :=
  match x with
  | none => d
  | some v => if v = 0 then d else v

/-- JS `x || d` for a possibly-undefined string: `undefined` and `""` are falsy. -/
def truthyOrStr (x : Option String) (d : String) : String :=
  match x with
  | none => d
  | some s => if s == "" then d else s

/-- JS truthiness of a possibly-undefined string (used in `if` guards). -/
def strTruthy (x : Option String) : Bool :=
  match x with
  | none => false
  | some s => !(s == "")

/-- `Except` success test (a promise that fulfilled rather than rejected). -/
def isOkB {ε α : Type} : Except ε α → Bool
  | Except.ok _ => true
  | Except.error _ => false

/-! ## Data model (spec §3, shapes produced by `controller.js`) -/

/-- A scene's `effects.kenBurns` object as produced by script generation
(`controller.js:78-84`); every field may be absent. -/
structure KenBurnsDecl where
  startZoom : Option ℚ
  endZoom : Option ℚ
  startX : Option ℚ
  startY : Option ℚ
  endX : Option ℚ
  endY : Option ℚ
deriving DecidableEq

/-- A scene of the generated script (`controller.js:69-85`). -/
structure Scene where
  id : String
  duration : ℚ
  narration : Option String
  visualDescription : Option String
  visualType : Option String
  searchQuery : Option String
  imagePrompt : Option String
  kenBurns : Option KenBurnsDecl
deriving DecidableEq

/-- The generated script (`controller.js:66-87`). -/
structure Script where
  title : String
  description : String
  scenes : List Scene
deriving DecidableEq

/-- An asset record as written into the shared asset map by the fan-out
orchestrator (`controller.js:449-493`): `duration` is present only on
generated audio, `prompt` only on generated images, `searchQuery` only on
stock footage. -/
structure Asset where
  type : String
  source : String
  duration : Option ℚ
  prompt : Option String
  searchQuery : Option String
deriving DecidableEq

/-- The name→asset map assembled by the fan-out (a JS object used as a map). -/
abbrev AssetMap := List (String × Asset)

/-- The `options` object accepted by `buildEDL` (`controller.js:290-321`). -/
structure RenderOptions where
  width : Option ℚ
  height : Option ℚ
  fps : Option ℚ
  format : Option String
  codec : Option String
  bitrate : Option String
  useGpu : Option Bool
  preset : Option String
  crf : Option ℚ
deriving DecidableEq

/-- `metadata.outputSettings` of the EDL (`controller.js:298-307`). -/
structure OutputSettings where
  width : ℚ
  height : ℚ
  fps : ℚ
  format : String
  codec : String
  bitrate : String
  audioCodec : String
  audioBitrate : String
deriving DecidableEq

/-- Ken Burns parameters attached to a clip effect (`controller.js:351-359`);
  in a hand-authored EDL any field may be absent, which is what the renderer's
  destructuring defaults (`entrypoint.js:99-107`) are for. -/
structure KBParams where
  startZoom : Option ℚ
  endZoom : Option ℚ
  startX : Option ℚ
  startY : Option ℚ
  endX : Option ℚ
  endY : Option ℚ
  easing : Option String
deriving DecidableEq

/-- A clip effect; the builder only ever produces `ken-burns` effects. -/
inductive Effect where
  | kenBurns (params : KBParams)
deriving DecidableEq

/-- A transition descriptor (`{type, duration}`); `duration` may be absent in
a hand-authored EDL (the renderer defaults it to `0.5`). -/
structure Transition where
  type : String
  duration : Option ℚ
deriving DecidableEq

/-- The `transitions` object of a clip; `tIn`/`tOut` model the JS fields
`in`/`out` (`in` is a Lean keyword). -/
structure Transitions where
  tIn : Option Transition
  tOut : Option Transition
deriving DecidableEq

/-- A timeline clip (`controller.js:338-378`). Audio clips are written
without `effects`/`transitions`/`inPoint` fields, modelled as `[]`/`none`. -/
structure Clip where
  id : String
  assetId : String
  startTime : ℚ
  duration : ℚ
  effects : List Effect
  transitions : Option Transitions
  inPoint : Option ℚ
deriving DecidableEq

/-- A timeline track (`controller.js:313-314`). -/
structure Track where
  id : String
  type : String
  name : String
  clips : List Clip
deriving DecidableEq

/-- The EDL timeline. -/
structure Timeline where
  duration : ℚ
  tracks : List Track
deriving DecidableEq

/-- EDL metadata (`controller.js:293-308`); `createdAt` records
`new Date().toISOString()` at build time. -/
structure Metadata where
  title : String
  description : String
  author : String
  createdAt : String
  outputSettings : OutputSettings
deriving DecidableEq

/-- `renderSettings` of the EDL (`controller.js:317-321`). -/
structure RenderSettings where
  useGpu : Bool
  preset : String
  crf : ℚ
deriving DecidableEq

/-- The Edit Decision List document (`controller.js:291-322`). -/
structure EDL where
  version : String
  metadata : Metadata
  assets : AssetMap
  timeline : Timeline
  renderSettings : RenderSettings
deriving DecidableEq

/-! ## EDL builder (`buildEDL`, `controller.js:290-386`) -/

/-- Clip duration rule, `controller.js:335`:
`const clipDuration = audioAsset.duration || scene.duration;` —
a JS truthiness test, so a `0` audio duration falls back like an absent one. -/
def clipDurationOf (audioAsset : Asset) (scene : Scene) : ℚ :=
  truthyOrQ audioAsset.duration scene.duration

/-- The Ken Burns params the builder attaches to an image clip
(`controller.js:348-359`): `scene.effects?.kenBurns || {startZoom: 1.0,
endZoom: 1.15}`, then `startX: kb.startX || 0` and friends, with easing
hard-coded to `ease-in-out`. -/
def builderKenBurnsParams (scene : Scene) : KBParams :=
  let kb := scene.kenBurns.getD
    { startZoom := some 1, endZoom := some (23/20), startX := none,
      startY := none, endX := none, endY := none }
  { startZoom := kb.startZoom
    endZoom := kb.endZoom
    startX := some (truthyOrQ kb.startX 0)
    startY := some (truthyOrQ kb.startY 0)
    endX := some (truthyOrQ kb.endX 0)
    endY := some (truthyOrQ kb.endY 0)
    easing := some "ease-in-out" }

/-- The video clip pushed for a resolved scene (`controller.js:338-370`). -/
def mkVideoClip (scene : Scene) (visualAsset audioAsset : Asset)
    (currentTime : ℚ) : Clip :=
  { id := "clip_" ++ scene.id
    assetId := "visual_" ++ scene.id
    startTime := currentTime
    duration := clipDurationOf audioAsset scene
    effects :=
      if visualAsset.type == "generated-image" || visualAsset.type == "image" then
        [Effect.kenBurns (builderKenBurnsParams scene)]
      else []
    transitions :=
      if 0 < currentTime then
        some { tIn := some { type := "dissolve", duration := some (1/2) }, tOut := none }
      else none
    inPoint := none }

/-- The audio clip pushed for a resolved scene (`controller.js:373-378`). -/
def mkAudioClip (scene : Scene) (audioAsset : Asset) (currentTime : ℚ) : Clip :=
  { id := "audio_clip_" ++ scene.id
    assetId := "audio_" ++ scene.id
    startTime := currentTime
    duration := clipDurationOf audioAsset scene
    effects := []
    transitions := none
    inPoint := none }

/-- The scene loop of `buildEDL` (`controller.js:324-381`): returns the video
clips, the audio clips, and the final `currentTime`. A scene whose `visual_`
or `audio_` asset is missing is skipped without advancing `currentTime`. -/
def buildClips (assets : AssetMap) : List Scene → ℚ → List Clip × List Clip × ℚ
  | [], currentTime => ([], [], currentTime)
  | scene :: rest, currentTime =>
    match assets.lookup ("visual_" ++ scene.id), assets.lookup ("audio_" ++ scene.id) with
    | some visualAsset, some audioAsset =>
      let d := clipDurationOf audioAsset scene
      let r := buildClips assets rest (currentTime + d)
      (mkVideoClip scene visualAsset audioAsset currentTime :: r.1,
       mkAudioClip scene audioAsset currentTime :: r.2.1,
       r.2.2)
    | _, _ => buildClips assets rest currentTime

/-- `buildEDL(script, assets, options)` (`controller.js:290-386`). The source
stamps `metadata.createdAt = new Date().toISOString()`; the ambient clock is
made explicit as the `now` argument. The function is total by construction
(it never fails on any well-typed input). -/
def buildEDL (script : Script) (assets : AssetMap) (options : RenderOptions)
    (now : String) : EDL :=
  let r := buildClips assets script.scenes 0
  { version := "1.0.0"
    metadata :=
      { title := script.title
        description := script.description
        author := "Hybrid Video Orchestrator"
        createdAt := now
        outputSettings :=
          { width := truthyOrQ options.width 1920
            height := truthyOrQ options.height 1080
            fps := truthyOrQ options.fps 30
            format := truthyOrStr options.format "mp4"
            codec := truthyOrStr options.codec "h264"
            bitrate := truthyOrStr options.bitrate "8M"
            audioCodec := "aac"
            audioBitrate := "192K" } }
    assets := assets
    timeline :=
      { duration := r.2.2
        tracks :=
          [ { id := "video-main", type := "video", name := "Main Video", clips := r.1 }
          , { id := "audio-narration", type := "audio", name := "Narration", clips := r.2.1 } ] }
    renderSettings :=
      { useGpu := options.useGpu != some false
        preset := truthyOrStr options.preset "medium"
        crf := truthyOrQ options.crf 23 } }

/-- The video track's clips, located the way the renderer does
(`entrypoint.js:432`, `tracks.find(t => t.type === 'video')`). -/
def EDL.videoClips (e : EDL) : List Clip :=
  ((e.timeline.tracks.find? (fun tr => tr.type == "video")).map Track.clips).getD []

/-- The audio track's clips (`entrypoint.js:433`). -/
def EDL.audioClips (e : EDL) : List Clip :=
  ((e.timeline.tracks.find? (fun tr => tr.type == "audio")).map Track.clips).getD []

/-- The scenes that survive into the timeline: both the `visual_` and the
`audio_` asset resolve in the asset map (`controller.js:333`). -/
def resolvedScenes (assets : AssetMap) (scenes : List Scene) : List Scene :=
  scenes.filter (fun s =>
    (assets.lookup ("visual_" ++ s.id)).isSome && (assets.lookup ("audio_" ++ s.id)).isSome)

/-- The clip duration the builder assigns to a (resolved) scene. -/
def sceneClipDuration (assets : AssetMap) (s : Scene) : ℚ :=
  match assets.lookup ("audio_" ++ s.id) with
  | some audioAsset => clipDurationOf audioAsset s
  | none => 0

/-- The clip duration as the spec's sentence words it: “the audio asset's
duration if present, else the scene's declared duration” — presence, not
truthiness. Kept separate from `clipDurationOf` (the code's rule) so the two
readings can be compared. -/
def specClipDuration (audioAsset : Asset) (scene : Scene) : ℚ :=
  match audioAsset.duration with
  | some d => d
  | none => scene.duration

/-- The spec-worded clip duration of a scene under an asset map. -/
def specSceneClipDuration (assets : AssetMap) (s : Scene) : ℚ :=
  match assets.lookup ("audio_" ++ s.id) with
  | some audioAsset => specClipDuration audioAsset s
  | none => 0

/-- Erase the build timestamp, for stating determinism modulo the clock. -/
def stripCreatedAt (e : EDL) : EDL :=
  { e with metadata := { e.metadata with createdAt := "" } }

/-! ## Stock-footage selection (`searchPexelsVideo`, `controller.js:218-262`) -/

/-- One encode of a Pexels video (`video_files[i]`). -/
structure VideoFile where
  quality : Option String
  link : String
  width : ℚ
  height : ℚ
deriving DecidableEq

/-- One Pexels search result. -/
structure PexelsVideo where
  id : ℚ
  duration : ℚ
  video_files : List VideoFile
deriving DecidableEq

/-- The selection `searchPexelsVideo` returns (`controller.js:241-247`). -/
structure PexelsSelection where
  id : ℚ
  url : String
  duration : ℚ
  width : ℚ
  height : ℚ
deriving DecidableEq

/-- Encode choice (`controller.js:240/253`):
`video.video_files.find(f => f.quality === 'hd') || video.video_files[0]` —
`undefined` (no encodes at all) makes the subsequent `.link` access throw,
modelled as the `none` case of the caller. -/
def pickVideoFile (video : PexelsVideo) : Option VideoFile :=
  (video.video_files.find? (fun f => f.quality == some "hd")).orElse
    (fun _ => video.video_files.head?)

/-- Selection policy of `searchPexelsVideo` (`controller.js:218-262`), starting
from the provider's result list (`response.data.videos`); the network call and
API-key guard are outside the selection logic. The duplicated selection code of
the source's two branches is mirrored as written. -/
def searchPexelsVideo (query : String) (responseVideos : List PexelsVideo)
    (minDuration : ℚ) : Except String PexelsSelection :=
  let videos := responseVideos.filter (fun v => decide (minDuration ≤ v.duration))
  match videos with
  | [] =>
    match responseVideos with
    | [] => Except.error ("No Pexels videos found for query: " ++ query)
    | video :: _ =>
      match pickVideoFile video with
      | none => Except.error ("TypeError: cannot read property of undefined (video_files is empty)")
      | some hdFile =>
        Except.ok
          { id := video.id, url := hdFile.link, duration := video.duration,
            width := hdFile.width, height := hdFile.height }
  | video :: _ =>
    match pickVideoFile video with
    | none => Except.error ("TypeError: cannot read property of undefined (video_files is empty)")
    | some hdFile =>
      Except.ok
        { id := video.id, url := hdFile.link, duration := video.duration,
          width := hdFile.width, height := hdFile.height }

/-! ## Asset fan-out orchestrator (`orchestrateVideoGeneration`,
`controller.js:423-535`) -/

/-- Speech synthesis result (`controller.js:206-209`). -/
structure TTSResult where
  gcsPath : String
  duration : ℚ
deriving DecidableEq

/-- The external providers the fan-out calls, at their interface boundary
(spec §6): each call either fulfills or rejects. `pexels` abstracts
`searchPexelsVideo`'s network call plus selection; `download` abstracts
`downloadPexelsVideoToGCS`. -/
structure Providers where
  imagen : String → Except String String
  pexels : String → ℚ → Except String PexelsSelection
  download : String → Except String String
  tts : String → Except String TTSResult

/-- The fallback query for an image scene (`controller.js:458`):
`scene.searchQuery || scene.visualDescription`. -/
def fallbackQuery (scene : Scene) : String :=
  truthyOrStr scene.searchQuery (scene.visualDescription.getD (""))

/-- The visual slot's promise for one scene (`controller.js:445-481`), when
one is issued. An `image` scene tries `generateImageWithImagen`; its `.catch`
falls back to the Pexels chain, whose own failure has no handler and
propagates. A `video` scene runs the Pexels chain with no handler at all. -/
def visualSlotOp (p : Providers) (scene : Scene) :
    Option (Except String (String × Asset)) :=
  if scene.visualType == some "image" && strTruthy scene.imagePrompt then
    some (match p.imagen (scene.imagePrompt.getD ("")) with
      | Except.ok gcsPath =>
        Except.ok ("visual_" ++ scene.id,
          { type := "generated-image", source := gcsPath, duration := none,
            prompt := scene.imagePrompt, searchQuery := none })
      | Except.error _ =>
        match p.pexels (fallbackQuery scene) scene.duration with
        | Except.error e => Except.error e
        | Except.ok video =>
          match p.download video.url with
          | Except.error e => Except.error e
          | Except.ok gcsPath =>
            Except.ok ("visual_" ++ scene.id,
              { type := "pexels-video", source := gcsPath, duration := none,
                prompt := none, searchQuery := some (fallbackQuery scene) }))
  else if scene.visualType == some "video" && strTruthy scene.searchQuery then
    some (match p.pexels (scene.searchQuery.getD ("")) scene.duration with
      | Except.error e => Except.error e
      | Except.ok video =>
        match p.download video.url with
        | Except.error e => Except.error e
        | Except.ok gcsPath =>
          Except.ok ("visual_" ++ scene.id,
            { type := "pexels-video", source := gcsPath, duration := none,
              prompt := none, searchQuery := scene.searchQuery }))
  else none

/-- The narration slot's promise for one scene (`controller.js:484-495`);
no `.catch`: a TTS rejection propagates. -/
def audioSlotOp (p : Providers) (scene : Scene) :
    Option (Except String (String × Asset)) :=
  if strTruthy scene.narration then
    some (match p.tts (scene.narration.getD ("")) with
      | Except.error e => Except.error e
      | Except.ok r =>
        Except.ok ("audio_" ++ scene.id,
          { type := "generated-audio", source := r.gcsPath,
            duration := some r.duration, prompt := none, searchQuery := none }))
  else none

/-- All issued slot operations, in script order (`assetPromises`,
`controller.js:438-496`). Each settled success contributes one distinct key
to the shared asset map. -/
def assetOps (p : Providers) (script : Script) :
    List (Except String (String × Asset)) :=
  script.scenes.flatMap (fun s => (visualSlotOp p s).toList ++ (audioSlotOp p s).toList)

/-- `Promise.all` (`controller.js:500`): fulfills with all results iff every
member fulfills; rejects iff some member rejects. (Which rejection is
surfaced depends on timing in JS; whether it rejects does not, and only that
is used below.) -/
def promiseAll {ε α : Type} : List (Except ε α) → Except ε (List α)
  | [] => Except.ok []
  | Except.ok a :: rest => (promiseAll rest).map (a :: ·)
  | Except.error e :: _ => Except.error e

/-- The orchestration outcome visible to the claims: the built EDL and the
summary fields of the response (`controller.js:526-534`). -/
structure OrchestrationOutcome where
  edl : EDL
  assetCount : Nat
  estimatedDuration : ℚ
deriving DecidableEq

/-- The orchestration core (`controller.js:423-535`), starting from the
generated script (script generation, GCS writes and render-job dispatch are
external I/O: a dispatch failure is caught at `controller.js:522-524` and
cannot abort the job, and the GCS writes are out of scope). The `await
Promise.all(assetPromises)` at `controller.js:500` rethrows any slot
rejection, so an error here returns before `buildEDL` at `controller.js:505`
is reached. -/
def orchestrateVideoGeneration (p : Providers) (script : Script)
    (options : RenderOptions) (now : String) : Except String OrchestrationOutcome :=
  match promiseAll (assetOps p script) with
  | Except.error e => Except.error e
  | Except.ok entries =>
    let assets : AssetMap := entries
    let edl := buildEDL script assets options now
    Except.ok
      { edl := edl, assetCount := assets.length,
        estimatedDuration := edl.timeline.duration }

/-! ## Ken Burns effect math (`generateKenBurnsFilter`,
`entrypoint.js:98-150`) -/

/-- The destructuring defaults of `generateKenBurnsFilter`
(`entrypoint.js:99-107`): a JS destructuring default applies exactly when the
field is `undefined`. -/
structure KBResolved where
  startZoom : ℚ
  endZoom : ℚ
  startX : ℚ
  startY : ℚ
  endX : ℚ
  endY : ℚ
  easing : String
deriving DecidableEq

/-- Apply the destructuring defaults (`entrypoint.js:99-107`):
`startZoom = 1.0, endZoom = 1.2, startX = 0, startY = 0, endX = 0, endY = 0,
easing = 'linear'`. -/
def kbResolve (params : KBParams) : KBResolved :=
  { startZoom := params.startZoom.getD 1
    endZoom := params.endZoom.getD (6/5)
    startX := params.startX.getD 0
    startY := params.startY.getD 0
    endX := params.endX.getD 0
    endY := params.endY.getD 0
    easing := params.easing.getD ("linear") }

/-- Output frame count, `Math.ceil(duration * fps)` (`entrypoint.js:112`). -/
def kenBurnsTotalFrames (duration fps : ℚ) : ℤ :=
  ⌈duration * fps⌉

/-- The value at time `t` of the zoom expression string built at
`entrypoint.js:115-128`: the four easing branches, any unrecognized easing
falling through to linear. -/
noncomputable def zoomExprFun (r : KBResolved) (duration t : ℝ) : ℝ :=
  let zoomDiff : ℝ := (r.endZoom : ℝ) - (r.startZoom : ℝ)
  if r.easing == "ease-in-out" then
    (r.startZoom : ℝ) + zoomDiff * (1 - Real.cos (Real.pi * t / duration)) / 2
  else if r.easing == "ease-in" then
    (r.startZoom : ℝ) + zoomDiff * (t / duration) ^ 2
  else if r.easing == "ease-out" then
    (r.startZoom : ℝ) + zoomDiff * (1 - (1 - t / duration) ^ 2)
  else
    (r.startZoom : ℝ) + zoomDiff * t / duration

/-- The value at time `t` of the `panXExpr` string built at
`entrypoint.js:130-141`: only the `ease-in-out` branch eases; every other
easing value (including `ease-in` and `ease-out`) takes the linear `else`
branch. -/
noncomputable def panXExprFun (r : KBResolved) (width duration t : ℝ) : ℝ :=
  let panXDiff : ℝ := ((r.endX : ℝ) - (r.startX : ℝ)) * width / 2
  if r.easing == "ease-in-out" then
    (r.startX : ℝ) * width / 2 + panXDiff * (1 - Real.cos (Real.pi * t / duration)) / 2
  else
    (r.startX : ℝ) * width / 2 + panXDiff * t / duration

/-- The value at time `t` of the `panYExpr` string (`entrypoint.js:134-141`). -/
noncomputable def panYExprFun (r : KBResolved) (height duration t : ℝ) : ℝ :=
  let panYDiff : ℝ := ((r.endY : ℝ) - (r.startY : ℝ)) * height / 2
  if r.easing == "ease-in-out" then
    (r.startY : ℝ) * height / 2 + panYDiff * (1 - Real.cos (Real.pi * t / duration)) / 2
  else
    (r.startY : ℝ) * height / 2 + panYDiff * t / duration

/-- The normalized progress `0→1` of each easing law, as the zoom uses it
(the family named by the spec: linear, quadratic in, quadratic out,
cosine-based in-out; anything else linear). -/
noncomputable def easeProgress (easing : String) (duration t : ℝ) : ℝ :=
  if easing == "ease-in-out" then (1 - Real.cos (Real.pi * t / duration)) / 2
  else if easing == "ease-in" then (t / duration) ^ 2
  else if easing == "ease-out" then 1 - (1 - t / duration) ^ 2
  else t / duration

/-- The pan-X expression as the claim words it: interpolating
`startX→endX` under the same easing law as the zoom, scaled by half the
frame width. -/
noncomputable def panXSameEasing (r : KBResolved) (width duration t : ℝ) : ℝ :=
  (r.startX : ℝ) * width / 2 +
    ((r.endX : ℝ) - (r.startX : ℝ)) * width / 2 * easeProgress r.easing duration t

/-! ## Per-clip render command (`renderClip`, `entrypoint.js:161-242`) -/

/-- A structured stand-in for the ffmpeg filter strings `renderClip`
assembles. -/
inductive VFilter where
  /-- `scale=W:H:...,pad=...,fps=F` normalization (`entrypoint.js:179-183`, `190-194`). -/
  | scalePadFps (width height fps : ℚ)
  /-- The string returned by `generateKenBurnsFilter(params, duration, outputSettings)`
  (`entrypoint.js:175`). -/
  | kenBurnsFilter (params : KBParams) (duration : ℚ) (width height fps : ℚ)
  /-- `fade=t=in:st=0:d=D` when `fadeIn`, else `fade=t=out:st=S:d=D`
  (`entrypoint.js:202/208`). -/
  | fade (fadeIn : Bool) (start : ℚ) (duration : ℚ)
deriving DecidableEq

/-- Whether a filter is a fade filter. -/
def VFilter.isFade : VFilter → Bool
  | VFilter.fade _ _ _ => true
  | _ => false

/-- A structured input option of the ffmpeg invocation. -/
inductive InputOpt where
  /-- `['-t', duration]` -/
  | timeLimit (t : ℚ)
  /-- `['-ss', inPoint]` -/
  | seek (t : ℚ)
deriving DecidableEq

/-- The ffmpeg command assembled by `renderClip`'s fluent-ffmpeg method
chain: only what is actually attached to `cmd` appears here. -/
structure FfmpegCommand where
  input : String
  loopInput : Bool
  inputOptions : List InputOpt
  complexFilter : List VFilter
  outputOptions : List String
  outputPath : String
deriving DecidableEq

/-- The first `ken-burns` entry of a clip's effects
(`clip.effects?.find(e => e.type === 'ken-burns')`, `entrypoint.js:173`). -/
def findKenBurns (effects : List Effect) : Option KBParams :=
  match effects.find? (fun e => match e with | Effect.kenBurns _ => true) with
  | some (Effect.kenBurns params) => some params
  | none => none

/-- The fade filters computed into the local `videoFilters` array at
`entrypoint.js:197-209`: an `in` transition of type `fade`/`dissolve` yields
`fade=t=in:st=0:d=fd`, an `out` one yields `fade=t=out:st=duration-fd:d=fd`,
with `fd = transition.duration || 0.5`. In the source this array is built
and then never attached to the command. -/
def renderClipVideoFilters (clip : Clip) : List VFilter :=
  let duration := clip.duration
  (match clip.transitions with
   | none => []
   | some trs =>
     (match trs.tIn with
      | some t =>
        if t.type == "fade" || t.type == "dissolve" then
          [VFilter.fade true 0 (truthyOrQ t.duration (1/2))]
        else []
      | none => []) ++
     (match trs.tOut with
      | some t =>
        if t.type == "fade" || t.type == "dissolve" then
          let fd := truthyOrQ t.duration (1/2)
          [VFilter.fade false (duration - fd) fd]
        else []
      | none => []))

/-- The ffmpeg command `renderClip` constructs (`entrypoint.js:161-242`),
paired with the orphaned `videoFilters` array so the divergence is
observable. The command receives the asset-type branch's complex filter
(`entrypoint.js:168-195`) and the output options (`entrypoint.js:212-221`);
`videoFilters` is computed in between but never passed to any `cmd` method. -/
def renderClip (clip : Clip) (asset : Asset) (assetPath outputPath : String)
    (outputSettings : OutputSettings) : FfmpegCommand × List VFilter :=
  let duration := clip.duration
  let cmd0 : FfmpegCommand :=
    { input := assetPath, loopInput := false, inputOptions := [],
      complexFilter := [], outputOptions := [], outputPath := "" }
  let cmd1 :=
    if asset.type == "generated-image" || asset.type == "image" then
      let c := { cmd0 with loopInput := true, inputOptions := [InputOpt.timeLimit duration] }
      match findKenBurns clip.effects with
      | some params =>
        { c with complexFilter :=
            [VFilter.kenBurnsFilter params duration
              outputSettings.width outputSettings.height outputSettings.fps] }
      | none =>
        { c with complexFilter :=
            [VFilter.scalePadFps outputSettings.width outputSettings.height outputSettings.fps] }
    else if asset.type == "pexels-video" || asset.type == "video" then
      { cmd0 with
          inputOptions := [InputOpt.seek (truthyOrQ clip.inPoint 0), InputOpt.timeLimit duration],
          complexFilter :=
            [VFilter.scalePadFps outputSettings.width outputSettings.height outputSettings.fps] }
    else cmd0
  let videoFilters := renderClipVideoFilters clip
  ({ cmd1 with
      outputOptions :=
        ["-c:v", if outputSettings.codec == "h265" then "libx265" else "libx264",
         "-preset", "fast", "-crf", "18", "-pix_fmt", "yuv420p", "-an", "-y"],
      outputPath := outputPath },
   videoFilters)

/-! ## Auxiliary definitions for the statements -/

/-- The running-clock invariant of a clip list: the first clip starts at `t`
and each next clip starts where the previous one ends. -/
def startsFrom : ℚ → List Clip → Prop
  | _, [] => True
  | t, c :: rest => c.startTime = t ∧ startsFrom (t + c.duration) rest

/-- An `options` object with every field absent (`{}`). -/
def optsNone : RenderOptions :=
  { width := none, height := none, fps := none, format := none, codec := none,
    bitrate := none, useGpu := none, preset := none, crf := none }

/-- Ken Burns params object with every field absent (`{}`). -/
def emptyKBParams : KBParams :=
  { startZoom := none, endZoom := none, startX := none, startY := none,
    endX := none, endY := none, easing := none }

/-! Concrete sample data used by counterexamples and witnesses. -/

/-- A well-formed image scene. -/
def sceneW : Scene :=
  { id := "s1", duration := 5, narration := some "hello world",
    visualDescription := some "a dog running", visualType := some "image",
    searchQuery := some "dog", imagePrompt := some "a dog", kenBurns := none }

/-- A generated-image visual asset for `sceneW`. -/
def imgAssetW : Asset :=
  { type := "generated-image", source := "gs://b/v1.png", duration := none,
    prompt := some "a dog", searchQuery := none }

/-- A narration asset for `sceneW` with a positive duration. -/
def audAssetW : Asset :=
  { type := "generated-audio", source := "gs://b/a1.mp3", duration := some 4,
    prompt := none, searchQuery := none }

/-- A fully resolved asset map for `sceneW`. -/
def assetsW : AssetMap := [("visual_s1", imgAssetW), ("audio_s1", audAssetW)]

/-- A one-scene script around `sceneW`. -/
def scriptW : Script := { title := "W", description := "W", scenes := [sceneW] }

/-- A scene of declared duration 7. -/
def zeroAudioScene : Scene :=
  { id := "s1", duration := 7, narration := some "hello",
    visualDescription := none, visualType := some "image",
    searchQuery := none, imagePrompt := some "a cat", kenBurns := none }

/-- A narration asset carrying duration `0` (a present but falsy value). -/
def zeroAudioAsset : Asset :=
  { type := "generated-audio", source := "gs://b/a1.mp3", duration := some 0,
    prompt := none, searchQuery := none }

/-- Asset map resolving `zeroAudioScene` with a `0`-duration narration. -/
def zeroAudioAssets : AssetMap :=
  [("visual_s1", imgAssetW), ("audio_s1", zeroAudioAsset)]

/-- One-scene script around `zeroAudioScene`. -/
def zeroAudioScript : Script :=
  { title := "T", description := "D", scenes := [zeroAudioScene] }

/-- Scene 1 of the negative-duration example (declared duration 5). -/
def negScene1 : Scene :=
  { id := "s1", duration := 5, narration := some "one",
    visualDescription := none, visualType := some "image",
    searchQuery := none, imagePrompt := some "p1", kenBurns := none }

/-- Scene 2 of the negative-duration example. -/
def negScene2 : Scene :=
  { id := "s2", duration := 5, narration := some "two",
    visualDescription := none, visualType := some "image",
    searchQuery := none, imagePrompt := some "p2", kenBurns := none }

/-- A narration asset carrying a negative duration (truthy in JS). -/
def negAudioAsset : Asset :=
  { type := "generated-audio", source := "gs://b/a1.mp3", duration := some (-3),
    prompt := none, searchQuery := none }

/-- A narration asset of duration 2. -/
def posAudioAsset2 : Asset :=
  { type := "generated-audio", source := "gs://b/a2.mp3", duration := some 2,
    prompt := none, searchQuery := none }

/-- Asset map giving scene 1 a `-3` narration duration and scene 2 a `2`. -/
def negAssets : AssetMap :=
  [ ("visual_s1", imgAssetW), ("audio_s1", negAudioAsset)
  , ("visual_s2", imgAssetW), ("audio_s2", posAudioAsset2) ]

/-- Two-scene script for the negative-duration example. -/
def negScript : Script := { title := "N", description := "N", scenes := [negScene1, negScene2] }

/-- First scene of the zero-start example: declared duration 0, narration
duration 0 — the built clip has duration 0, so the next clip also starts at 0. -/
def zStartScene1 : Scene :=
  { id := "s1", duration := 0, narration := some "a",
    visualDescription := none, visualType := some "image",
    searchQuery := none, imagePrompt := some "p1", kenBurns := none }

/-- Second scene of the zero-start example. -/
def zStartScene2 : Scene :=
  { id := "s2", duration := 5, narration := some "b",
    visualDescription := none, visualType := some "image",
    searchQuery := none, imagePrompt := some "p2", kenBurns := none }

/-- A narration asset of duration 5. -/
def posAudioAsset5 : Asset :=
  { type := "generated-audio", source := "gs://b/a2.mp3", duration := some 5,
    prompt := none, searchQuery := none }

/-- Asset map resolving both zero-start scenes. -/
def zStartAssets : AssetMap :=
  [ ("visual_s1", imgAssetW), ("audio_s1", zeroAudioAsset)
  , ("visual_s2", imgAssetW), ("audio_s2", posAudioAsset5) ]

/-- Two-scene script for the zero-start example. -/
def zStartScript : Script :=
  { title := "Z", description := "Z", scenes := [zStartScene1, zStartScene2] }

/-- Providers where image generation fails and the stock-footage fallback
also fails, while speech synthesis succeeds. -/
def provFail : Providers :=
  { imagen := fun _ => Except.error ("imagen quota exceeded")
    pexels := fun _ _ => Except.error ("No Pexels videos found for query: cats")
    download := fun _ => Except.ok ("gs://b/dl.mp4")
    tts := fun _ => Except.ok { gcsPath := "gs://b/tts.mp3", duration := 2 } }

/-- A narration-only sibling scene. -/
def sceneNarrationOnly : Scene :=
  { id := "s2", duration := 5, narration := some "more",
    visualDescription := none, visualType := none,
    searchQuery := none, imagePrompt := none, kenBurns := none }

/-- Script with one exhausted-fallback image scene and one healthy sibling. -/
def failScript : Script :=
  { title := "F", description := "F", scenes := [sceneW, sceneNarrationOnly] }

/-- Providers where every call succeeds. -/
def provGood : Providers :=
  { imagen := fun _ => Except.ok ("gs://b/img.png")
    pexels := fun _ _ => Except.ok
        { id := 1, url := "https://cdn/video.mp4", duration := 10, width := 1920, height := 1080 }
    download := fun _ => Except.ok ("gs://b/dl.mp4")
    tts := fun _ => Except.ok { gcsPath := "gs://b/tts.mp3", duration := 2 } }

/-- A clip carrying both an `in` dissolve and an `out` fade, duration 10. -/
def fadeClip : Clip :=
  { id := "clip_s1", assetId := "visual_s1", startTime := 0, duration := 10,
    effects := [],
    transitions := some
      { tIn := some { type := "dissolve", duration := some (1/2) }
        tOut := some { type := "fade", duration := some (1/2) } },
    inPoint := none }

/-- Default output settings (1920×1080 at 30 fps, h264). -/
def osW : OutputSettings :=
  { width := 1920, height := 1080, fps := 30, format := "mp4", codec := "h264",
    bitrate := "8M", audioCodec := "aac", audioBitrate := "192K" }

/-- Ken Burns params declaring a full-frame X/Y pan under `ease-in` easing. -/
def easeInParams : KBParams :=
  { startZoom := none, endZoom := none, startX := some 0, startY := some 0,
    endX := some 1, endY := some 1, easing := some "ease-in" }

/-- A Pexels result of adequate duration but with an empty encode list. -/
def noEncodesVideo : PexelsVideo := { id := 1, duration := 10, video_files := [] }

/-! ## Structural lemmas -/

theorem truthyOrQ_nonneg (o : Option ℚ) (d : ℚ) (hd : 0 ≤ d)
    (ho : ∀ v, o = some v → 0 ≤ v) : 0 ≤ truthyOrQ o d := by
  cases o with
  | none => simpa [truthyOrQ] using hd
  | some v =>
    by_cases hv : v = 0
    · simpa [truthyOrQ, hv] using hd
    · simpa [truthyOrQ, hv] using ho v rfl

theorem lookup_mem_pair (l : AssetMap) (k : String) (a : Asset)
    (h : l.lookup k = some a) : ∃ κ, (κ, a) ∈ l := by
  induction l with
  | nil => simp [List.lookup] at h
  | cons p rest ih =>
    rw [List.lookup] at h
    by_cases hk : k == p.1
    · rw [hk] at h
      simp only [Option.some.injEq] at h
      exact ⟨p.1, by simp [← h]⟩
    · rw [Bool.not_eq_true] at hk
      rw [hk] at h
      obtain ⟨κ, hm⟩ := ih h
      exact ⟨κ, List.mem_cons_of_mem _ hm⟩

theorem startsFrom_chain_eq (l : List Clip) :
    ∀ t : ℚ, startsFrom t l →
    List.Chain' (fun a b => b.startTime = a.startTime + a.duration) l := by
  induction l with
  | nil => intro t _; simp
  | cons a l ih =>
    intro t h
    obtain ⟨ha, hrest⟩ := h
    cases l with
    | nil => simp
    | cons b l' =>
      rw [List.chain'_cons]
      exact ⟨by rw [hrest.1, ha], ih (t + a.duration) hrest⟩

theorem startsFrom_chain_le (l : List Clip) :
    ∀ t : ℚ, startsFrom t l → (∀ c ∈ l, 0 ≤ c.duration) →
    List.Chain' (fun a b => a.startTime ≤ b.startTime) l := by
  induction l with
  | nil => intro t _ _; simp
  | cons a l ih =>
    intro t h hnn
    obtain ⟨ha, hrest⟩ := h
    cases l with
    | nil => simp
    | cons b l' =>
      rw [List.chain'_cons]
      constructor
      · rw [hrest.1, ha]
        have := hnn a (by simp)
        linarith
      · exact ih (t + a.duration) hrest (fun c hc => hnn c (List.mem_cons_of_mem _ hc))

theorem startsFrom_getLast (l : List Clip) :
    ∀ (t : ℚ) (c : Clip), startsFrom t l → l.getLast? = some c →
    c.startTime + c.duration = t + (l.map Clip.duration).sum := by
  induction l with
  | nil => intro t c _ h2; simp at h2
  | cons a l ih =>
    intro t c h h2
    obtain ⟨ha, hrest⟩ := h
    cases l with
    | nil =>
      simp only [List.getLast?_singleton, Option.some.injEq] at h2
      subst h2
      simp [ha]
    | cons b l' =>
      rw [List.getLast?_cons_cons] at h2
      have := ih (t + a.duration) c hrest h2
      simp only [List.map_cons, List.sum_cons] at this ⊢
      linarith

theorem buildClips_nil (assets : AssetMap) (t : ℚ) :
    buildClips assets [] t = ([], [], t) := rfl

theorem buildClips_cons_resolved (assets : AssetMap) (s : Scene)
    (rest : List Scene) (t : ℚ) (va aa : Asset)
    (hv : assets.lookup ("visual_" ++ s.id) = some va)
    (ha : assets.lookup ("audio_" ++ s.id) = some aa) :
    buildClips assets (s :: rest) t =
      (mkVideoClip s va aa t :: (buildClips assets rest (t + clipDurationOf aa s)).1,
       mkAudioClip s aa t :: (buildClips assets rest (t + clipDurationOf aa s)).2.1,
       (buildClips assets rest (t + clipDurationOf aa s)).2.2) := by
  simp [buildClips, hv, ha]

theorem buildClips_cons_skip (assets : AssetMap) (s : Scene)
    (rest : List Scene) (t : ℚ)
    (h : assets.lookup ("visual_" ++ s.id) = none ∨
         assets.lookup ("audio_" ++ s.id) = none) :
    buildClips assets (s :: rest) t = buildClips assets rest t := by
  rcases h with h | h
  · simp [buildClips, h]
  · rcases hv : assets.lookup ("visual_" ++ s.id) with _ | va <;>
      simp [buildClips, hv, h]

theorem buildClips_durations (assets : AssetMap) (scenes : List Scene) :
    ∀ t : ℚ,
    (buildClips assets scenes t).1.map Clip.duration
      = (resolvedScenes assets scenes).map (sceneClipDuration assets)
    ∧ (buildClips assets scenes t).2.1.map Clip.duration
      = (resolvedScenes assets scenes).map (sceneClipDuration assets) := by
  induction scenes with
  | nil => intro t; simp [buildClips_nil, resolvedScenes]
  | cons s rest ih =>
    intro t
    rcases hv : assets.lookup ("visual_" ++ s.id) with _ | va
    · have hskip := buildClips_cons_skip assets s rest t (Or.inl hv)
      rw [hskip]
      simpa [resolvedScenes, List.filter_cons, hv] using ih t
    · rcases ha : assets.lookup ("audio_" ++ s.id) with _ | aa
      · have hskip := buildClips_cons_skip assets s rest t (Or.inr ha)
        rw [hskip]
        simpa [resolvedScenes, List.filter_cons, hv, ha] using ih t
      · rw [buildClips_cons_resolved assets s rest t va aa hv ha]
        have ihr := ih (t + clipDurationOf aa s)
        simp [resolvedScenes, List.filter_cons, hv, ha, mkVideoClip, mkAudioClip,
          sceneClipDuration, ihr.1, ihr.2]

theorem buildClips_endTime (assets : AssetMap) (scenes : List Scene) :
    ∀ t : ℚ,
    (buildClips assets scenes t).2.2
      = t + ((buildClips assets scenes t).1.map Clip.duration).sum := by
  induction scenes with
  | nil => intro t; simp [buildClips_nil]
  | cons s rest ih =>
    intro t
    rcases hv : assets.lookup ("visual_" ++ s.id) with _ | va
    · rw [buildClips_cons_skip assets s rest t (Or.inl hv)]; exact ih t
    · rcases ha : assets.lookup ("audio_" ++ s.id) with _ | aa
      · rw [buildClips_cons_skip assets s rest t (Or.inr ha)]; exact ih t
      · rw [buildClips_cons_resolved assets s rest t va aa hv ha]
        have ihr := ih (t + clipDurationOf aa s)
        simp only [List.map_cons, List.sum_cons, mkVideoClip] at ihr ⊢
        rw [ihr]
        ring

theorem buildClips_startsFrom (assets : AssetMap) (scenes : List Scene) :
    ∀ t : ℚ,
    startsFrom t (buildClips assets scenes t).1
    ∧ startsFrom t (buildClips assets scenes t).2.1 := by
  induction scenes with
  | nil => intro t; simp [buildClips_nil, startsFrom]
  | cons s rest ih =>
    intro t
    rcases hv : assets.lookup ("visual_" ++ s.id) with _ | va
    · rw [buildClips_cons_skip assets s rest t (Or.inl hv)]; exact ih t
    · rcases ha : assets.lookup ("audio_" ++ s.id) with _ | aa
      · rw [buildClips_cons_skip assets s rest t (Or.inr ha)]; exact ih t
      · rw [buildClips_cons_resolved assets s rest t va aa hv ha]
        have ihr := ih (t + clipDurationOf aa s)
        exact ⟨⟨rfl, by simpa [mkVideoClip] using ihr.1⟩,
               ⟨rfl, by simpa [mkAudioClip] using ihr.2⟩⟩

theorem buildClips_assetId_resolves (assets : AssetMap) (scenes : List Scene) :
    ∀ t : ℚ,
    (∀ c ∈ (buildClips assets scenes t).1, (assets.lookup c.assetId).isSome = true)
    ∧ (∀ c ∈ (buildClips assets scenes t).2.1, (assets.lookup c.assetId).isSome = true) := by
  induction scenes with
  | nil => intro t; simp [buildClips_nil]
  | cons s rest ih =>
    intro t
    rcases hv : assets.lookup ("visual_" ++ s.id) with _ | va
    · rw [buildClips_cons_skip assets s rest t (Or.inl hv)]; exact ih t
    · rcases ha : assets.lookup ("audio_" ++ s.id) with _ | aa
      · rw [buildClips_cons_skip assets s rest t (Or.inr ha)]; exact ih t
      · rw [buildClips_cons_resolved assets s rest t va aa hv ha]
        have ihr := ih (t + clipDurationOf aa s)
        constructor
        · intro c hc
          rcases List.mem_cons.mp hc with hc | hc
          · subst hc; simp [mkVideoClip, hv]
          · exact ihr.1 c hc
        · intro c hc
          rcases List.mem_cons.mp hc with hc | hc
          · subst hc; simp [mkAudioClip, ha]
          · exact ihr.2 c hc

theorem buildClips_duration_nonneg (assets : AssetMap)
    (hassets : ∀ pr ∈ assets, ∀ d : ℚ, pr.2.duration = some d → 0 ≤ d)
    (scenes : List Scene) :
    ∀ t : ℚ, (∀ s ∈ scenes, 0 ≤ s.duration) →
    (∀ c ∈ (buildClips assets scenes t).1, 0 ≤ c.duration)
    ∧ (∀ c ∈ (buildClips assets scenes t).2.1, 0 ≤ c.duration) := by
  induction scenes with
  | nil => intro t _; simp [buildClips_nil]
  | cons s rest ih =>
    intro t hs
    have hrest : ∀ x ∈ rest, 0 ≤ x.duration :=
      fun x hx => hs x (List.mem_cons_of_mem _ hx)
    rcases hv : assets.lookup ("visual_" ++ s.id) with _ | va
    · rw [buildClips_cons_skip assets s rest t (Or.inl hv)]; exact ih t hrest
    · rcases ha : assets.lookup ("audio_" ++ s.id) with _ | aa
      · rw [buildClips_cons_skip assets s rest t (Or.inr ha)]; exact ih t hrest
      · rw [buildClips_cons_resolved assets s rest t va aa hv ha]
        have ihr := ih (t + clipDurationOf aa s) hrest
        have hdur : 0 ≤ clipDurationOf aa s := by
          obtain ⟨κ, hmem⟩ := lookup_mem_pair assets _ aa ha
          exact truthyOrQ_nonneg aa.duration s.duration (hs s (by simp))
            (fun v hval => hassets (κ, aa) hmem v hval)
        constructor
        · intro c hc
          rcases List.mem_cons.mp hc with hc | hc
          · subst hc; simpa [mkVideoClip] using hdur
          · exact ihr.1 c hc
        · intro c hc
          rcases List.mem_cons.mp hc with hc | hc
          · subst hc; simpa [mkAudioClip] using hdur
          · exact ihr.2 c hc

theorem buildClips_transitions (assets : AssetMap) (scenes : List Scene) :
    ∀ t : ℚ, ∀ c ∈ (buildClips assets scenes t).1,
    c.transitions =
      if 0 < c.startTime then
        some { tIn := some { type := "dissolve", duration := some (1/2) }, tOut := none }
      else none := by
  induction scenes with
  | nil => intro t; simp [buildClips_nil]
  | cons s rest ih =>
    intro t c hc
    rcases hv : assets.lookup ("visual_" ++ s.id) with _ | va
    · rw [buildClips_cons_skip assets s rest t (Or.inl hv)] at hc; exact ih t c hc
    · rcases ha : assets.lookup ("audio_" ++ s.id) with _ | aa
      · rw [buildClips_cons_skip assets s rest t (Or.inr ha)] at hc; exact ih t c hc
      · rw [buildClips_cons_resolved assets s rest t va aa hv ha] at hc
        rcases List.mem_cons.mp hc with hc | hc
        · subst hc; simp [mkVideoClip]
        · exact ih (t + clipDurationOf aa s) c hc

theorem buildEDL_tracks (script : Script) (assets : AssetMap)
    (options : RenderOptions) (now : String) :
    (buildEDL script assets options now).timeline.tracks =
      [ { id := "video-main", type := "video", name := "Main Video",
          clips := (buildClips assets script.scenes 0).1 }
      , { id := "audio-narration", type := "audio", name := "Narration",
          clips := (buildClips assets script.scenes 0).2.1 } ] := rfl

theorem buildEDL_duration (script : Script) (assets : AssetMap)
    (options : RenderOptions) (now : String) :
    (buildEDL script assets options now).timeline.duration
      = (buildClips assets script.scenes 0).2.2 := rfl

theorem buildEDL_assets (script : Script) (assets : AssetMap)
    (options : RenderOptions) (now : String) :
    (buildEDL script assets options now).assets = assets := rfl

theorem buildEDL_videoClips (script : Script) (assets : AssetMap)
    (options : RenderOptions) (now : String) :
    (buildEDL script assets options now).videoClips
      = (buildClips assets script.scenes 0).1 := rfl

theorem buildEDL_audioClips (script : Script) (assets : AssetMap)
    (options : RenderOptions) (now : String) :
    (buildEDL script assets options now).audioClips
      = (buildClips assets script.scenes 0).2.1 := rfl

theorem promiseAll_isOk_iff {ε α : Type} (l : List (Except ε α)) :
    isOkB (promiseAll l) = true ↔ ∀ op ∈ l, isOkB op = true := by
  induction l with
  | nil => simp [promiseAll, isOkB]
  | cons op rest ih =>
    cases op with
    | ok a =>
      rcases hr : promiseAll rest with e | entries
      · constructor
        · intro h
          exact absurd h (by simp [promiseAll, hr, Except.map, isOkB])
        · intro h
          have hall : isOkB (promiseAll rest) = true :=
            ih.mpr (fun op hop => h op (List.mem_cons_of_mem _ hop))
          rw [hr] at hall
          simp [isOkB] at hall
      · constructor
        · intro _ op hop
          rcases List.mem_cons.mp hop with rfl | hop
          · rfl
          · exact ih.mp (by rw [hr]; rfl) op hop
        · intro _
          simp [promiseAll, hr, Except.map, isOkB]
    | error e => simp [promiseAll, isOkB]

theorem head_filter_eq_find {α : Type} (p : α → Bool) (l : List α) :
    (l.filter p).head? = l.find? p := by
  induction l with
  | nil => rfl
  | cons a t ih => by_cases h : p a <;> simp [List.filter_cons, h, List.find?, ih]

/-! ## Claim theorems -/

/-- C3 (amended): for every script and asset map, `timeline.duration` equals
the sum, over the scenes whose `visual_{id}` and `audio_{id}` assets both
resolve, of the scene's clip duration — the audio asset's duration if present
and nonzero (JS truthiness), else the scene's declared duration — and each of
the two tracks carries exactly one clip per such scene; a scene missing
either asset contributes no clips and its duration is excluded from the sum. -/
theorem buildEDL_duration_sum_and_counts (script : Script) (assets : AssetMap)
    (options : RenderOptions) (now : String) :
    (buildEDL script assets options now).timeline.duration
      = ((resolvedScenes assets script.scenes).map (sceneClipDuration assets)).sum
    ∧ (buildEDL script assets options now).videoClips.length
      = (resolvedScenes assets script.scenes).length
    ∧ (buildEDL script assets options now).audioClips.length
      = (resolvedScenes assets script.scenes).length := by
  have hd := buildClips_durations assets script.scenes 0
  refine ⟨?_, ?_, ?_⟩
  · rw [buildEDL_duration, buildClips_endTime, hd.1, zero_add]
  · rw [buildEDL_videoClips]
    simpa using congrArg List.length hd.1
  · rw [buildEDL_audioClips]
    simpa using congrArg List.length hd.2

/-- C3 (counterexample): with an audio asset *present* but carrying duration
`0` (scene duration 7), the built timeline duration is `7`, while the claim's
rule — “the audio asset's duration if present” — would make it `0`. -/
theorem buildEDL_zero_audio_duration_vs_present_rule :
    (buildEDL zeroAudioScript zeroAudioAssets optsNone ("T")).timeline.duration = 7
    ∧ ((resolvedScenes zeroAudioAssets zeroAudioScript.scenes).map
        (specSceneClipDuration zeroAudioAssets)).sum = 0
    ∧ (7 : ℚ) ≠ 0 := by
  refine ⟨?_, ?_, by norm_num⟩
  · rw [buildEDL_duration]
    norm_num +decide [buildClips, zeroAudioScript, zeroAudioScene, zeroAudioAssets,
      zeroAudioAsset, imgAssetW, List.lookup, clipDurationOf, truthyOrQ]
  · norm_num +decide [resolvedScenes, zeroAudioScript, zeroAudioScene, zeroAudioAssets,
      zeroAudioAsset, imgAssetW, List.lookup, List.filter_cons,
      specSceneClipDuration, specClipDuration]

/-- C4 (amended): `buildEDL` is total (it is a function of its four inputs)
and deterministic apart from `metadata.createdAt`, which records the ambient
clock at the moment of the call: every other part of the document depends
only on the script, asset map and options. -/
theorem buildEDL_deterministic_modulo_createdAt (script : Script)
    (assets : AssetMap) (options : RenderOptions) (now₁ now₂ : String) :
    stripCreatedAt (buildEDL script assets options now₁)
      = stripCreatedAt (buildEDL script assets options now₂)
    ∧ (buildEDL script assets options now₁).metadata.createdAt = now₁ :=
  ⟨rfl, rfl⟩

/-- C4 (counterexample): two invocations of `buildEDL` on identical script,
assets and options, made at different clock readings, produce different EDL
documents (their `metadata.createdAt` fields differ). -/
theorem buildEDL_not_invocation_deterministic :
    buildEDL zeroAudioScript zeroAudioAssets optsNone ("2025-01-01T00:00:00Z")
      ≠ buildEDL zeroAudioScript zeroAudioAssets optsNone ("2025-01-02T00:00:00Z") := by
  intro h
  have hc : ("2025-01-01T00:00:00Z" : String) = "2025-01-02T00:00:00Z" :=
    congrArg (fun e : EDL => e.metadata.createdAt) h
  exact absurd hc (by decide)

/-- C10 (confirmed): when a scene's audio asset is present but its `duration`
is absent or `0`, the built clip (on both tracks) gets the scene's declared
duration: `audioAsset.duration || scene.duration` tests truthiness, not
presence. Stated over `buildClips` with an arbitrary running time `t` and
tail `rest`, which is the state `buildEDL`'s loop reaches each scene in. -/
theorem clipDuration_fallback_on_falsy_audio (assets : AssetMap) (s : Scene)
    (rest : List Scene) (t : ℚ) (va aa : Asset)
    (hv : assets.lookup ("visual_" ++ s.id) = some va)
    (ha : assets.lookup ("audio_" ++ s.id) = some aa)
    (hd : aa.duration = none ∨ aa.duration = some 0) :
    ((buildClips assets (s :: rest) t).1.head?.map Clip.duration) = some s.duration
    ∧ ((buildClips assets (s :: rest) t).2.1.head?.map Clip.duration) = some s.duration := by
  rw [buildClips_cons_resolved assets s rest t va aa hv ha]
  rcases hd with hd | hd <;>
    simp [mkVideoClip, mkAudioClip, clipDurationOf, truthyOrQ, hd]

/-- Witness for C10 at a concrete input: scene duration 7, audio duration 0. -/
theorem clipDuration_fallback_witness :
    ((buildClips zeroAudioAssets [zeroAudioScene] 0).1.head?.map Clip.duration) = some 7
    ∧ ((buildClips zeroAudioAssets [zeroAudioScene] 0).2.1.head?.map Clip.duration) = some 7 :=
  clipDuration_fallback_on_falsy_audio zeroAudioAssets zeroAudioScene [] 0
    imgAssetW zeroAudioAsset rfl rfl (Or.inr rfl)

/-- C5 (amended): every EDL produced by `buildEDL` has all clip `assetId`s
resolving in its `assets` map, contiguous clips within each track (each
clip's `startTime` equals the previous clip's `startTime + duration`), and
`timeline.duration` equal to the video track's last clip's
`startTime + duration` when that track is non-empty; `startTime`s are
furthermore non-decreasing provided every scene duration and every asset
duration in the inputs is non-negative (a negative audio duration — a truthy
JS number — would make them decrease). -/
theorem buildEDL_edl_invariant (script : Script) (assets : AssetMap)
    (options : RenderOptions) (now : String) :
    (∀ tr ∈ (buildEDL script assets options now).timeline.tracks,
       ∀ c ∈ tr.clips,
         ((buildEDL script assets options now).assets.lookup c.assetId).isSome = true)
    ∧ (∀ tr ∈ (buildEDL script assets options now).timeline.tracks,
         List.Chain' (fun a b => b.startTime = a.startTime + a.duration) tr.clips)
    ∧ (∀ c : Clip,
         (buildEDL script assets options now).videoClips.getLast? = some c →
         (buildEDL script assets options now).timeline.duration
           = c.startTime + c.duration)
    ∧ ((∀ s ∈ script.scenes, 0 ≤ s.duration) →
       (∀ pr ∈ assets, ∀ d : ℚ, pr.2.duration = some d → 0 ≤ d) →
       ∀ tr ∈ (buildEDL script assets options now).timeline.tracks,
         List.Chain' (fun a b => a.startTime ≤ b.startTime) tr.clips) := by
  have hsf := buildClips_startsFrom assets script.scenes 0
  have hres := buildClips_assetId_resolves assets script.scenes 0
  rw [buildEDL_assets]
  refine ⟨?_, ?_, ?_, ?_⟩
  · intro tr htr c hc
    rw [buildEDL_tracks] at htr
    rcases List.mem_cons.mp htr with rfl | htr
    · exact hres.1 c hc
    · rcases List.mem_cons.mp htr with rfl | htr
      · exact hres.2 c hc
      · simp at htr
  · intro tr htr
    rw [buildEDL_tracks] at htr
    rcases List.mem_cons.mp htr with rfl | htr
    · exact startsFrom_chain_eq _ 0 hsf.1
    · rcases List.mem_cons.mp htr with rfl | htr
      · exact startsFrom_chain_eq _ 0 hsf.2
      · simp at htr
  · intro c hlast
    rw [buildEDL_videoClips] at hlast
    rw [buildEDL_duration, buildClips_endTime]
    have := startsFrom_getLast _ 0 c hsf.1 hlast
    linarith
  · intro hscene hasset tr htr
    have hnn := buildClips_duration_nonneg assets hasset script.scenes 0 hscene
    rw [buildEDL_tracks] at htr
    rcases List.mem_cons.mp htr with rfl | htr
    · exact startsFrom_chain_le _ 0 hsf.1 hnn.1
    · rcases List.mem_cons.mp htr with rfl | htr
      · exact startsFrom_chain_le _ 0 hsf.2 hnn.2
      · simp at htr

/-- Witness for C5 at a concrete input (one resolved scene, all durations
non-negative). -/
theorem buildEDL_edl_invariant_witness :
    (∀ tr ∈ (buildEDL scriptW assetsW optsNone ("T")).timeline.tracks,
       ∀ c ∈ tr.clips,
         ((buildEDL scriptW assetsW optsNone ("T")).assets.lookup c.assetId).isSome = true)
    ∧ (∀ tr ∈ (buildEDL scriptW assetsW optsNone ("T")).timeline.tracks,
         List.Chain' (fun a b => b.startTime = a.startTime + a.duration) tr.clips)
    ∧ (∀ c : Clip,
         (buildEDL scriptW assetsW optsNone ("T")).videoClips.getLast? = some c →
         (buildEDL scriptW assetsW optsNone ("T")).timeline.duration
           = c.startTime + c.duration)
    ∧ (∀ tr ∈ (buildEDL scriptW assetsW optsNone ("T")).timeline.tracks,
         List.Chain' (fun a b => a.startTime ≤ b.startTime) tr.clips) :=
  ⟨(buildEDL_edl_invariant scriptW assetsW optsNone ("T")).1,
   (buildEDL_edl_invariant scriptW assetsW optsNone ("T")).2.1,
   (buildEDL_edl_invariant scriptW assetsW optsNone ("T")).2.2.1,
   (buildEDL_edl_invariant scriptW assetsW optsNone ("T")).2.2.2 (by decide) (by decide)⟩

/-- C5 (counterexample): a truthy negative audio duration (`-3`) makes the
video track's `startTime`s decrease (`0` then `-3`), so the claimed
non-decreasing property fails on an EDL produced by `buildEDL`. -/
theorem buildEDL_negative_duration_breaks_monotonicity :
    ¬ List.Chain' (fun a b : Clip => a.startTime ≤ b.startTime)
        (buildEDL negScript negAssets optsNone ("T")).videoClips := by
  intro h
  have hmap : ((buildEDL negScript negAssets optsNone ("T")).videoClips.map
      Clip.startTime) = [0, -3] := by
    rw [buildEDL_videoClips]
    norm_num +decide [buildClips, negScript, negScene1, negScene2, negAssets,
      negAudioAsset, posAudioAsset2, imgAssetW, List.lookup, mkVideoClip,
      mkAudioClip, clipDurationOf, truthyOrQ]
  have h2 := (List.chain'_map Clip.startTime).mpr h
  rw [hmap, List.chain'_cons] at h2
  have : ¬ ((0 : ℚ) ≤ -3) := by norm_num
  exact this h2.1

/-- C6 (amended): in every EDL produced by `buildEDL`, the first video clip
starts at `0` and carries no transitions, and a video clip carries the
`in: {dissolve, 0.5}` transition exactly when its `startTime` is positive —
the builder keys the transition on `currentTime > 0`, not on the clip's
index, so a subsequent clip starting at time `0` (all preceding clip
durations summing to `0`) gets none. -/
theorem buildEDL_transitions_characterization (script : Script)
    (assets : AssetMap) (options : RenderOptions) (now : String) :
    (∀ c : Clip, (buildEDL script assets options now).videoClips.head? = some c →
       c.startTime = 0 ∧ c.transitions = none)
    ∧ (∀ c ∈ (buildEDL script assets options now).videoClips,
        c.transitions =
          if 0 < c.startTime then
            some { tIn := some { type := "dissolve", duration := some (1/2) },
                   tOut := none }
          else none) := by
  have hsf := (buildClips_startsFrom assets script.scenes 0).1
  have htr := buildClips_transitions assets script.scenes
  constructor
  · intro c hc
    rw [buildEDL_videoClips] at hc
    rcases hl : (buildClips assets script.scenes 0).1 with _ | ⟨c0, rest⟩
    · rw [hl] at hc; simp at hc
    · rw [hl] at hc
      simp only [List.head?_cons, Option.some.injEq] at hc
      subst hc
      rw [hl] at hsf
      refine ⟨hsf.1, ?_⟩
      have htr0 := htr 0 c0 (by rw [hl]; exact List.mem_cons_self c0 rest)
      rw [htr0, hsf.1]
      norm_num
  · intro c hc
    rw [buildEDL_videoClips] at hc
    exact htr 0 c hc

/-- Witness for C6 at a concrete input: the first clip of a one-scene build. -/
theorem buildEDL_transitions_witness :
    (mkVideoClip sceneW imgAssetW audAssetW 0).startTime = 0
    ∧ (mkVideoClip sceneW imgAssetW audAssetW 0).transitions = none :=
  (buildEDL_transitions_characterization scriptW assetsW optsNone ("T")).1
    (mkVideoClip sceneW imgAssetW audAssetW 0) rfl

/-- C6 (counterexample): when the first surviving clip has duration `0`
(scene duration 0, audio duration 0), the second surviving video clip —
timeline index 1 — also starts at `0` and gets *no* `in` transition, against
the claim that every subsequent clip gets the dissolve. -/
theorem buildEDL_zero_start_second_clip_no_transition :
    ((buildEDL zStartScript zStartAssets optsNone ("T")).videoClips.map
      Clip.transitions) = [none, none]
    ∧ (buildEDL zStartScript zStartAssets optsNone ("T")).videoClips.length = 2 := by
  rw [buildEDL_videoClips]
  constructor <;>
    norm_num +decide [buildClips, zStartScript, zStartScene1, zStartScene2,
      zStartAssets, zeroAudioAsset, posAudioAsset5, imgAssetW, List.lookup,
      mkVideoClip, mkAudioClip, clipDurationOf, truthyOrQ]

/-- C1 (amended): the orchestration completes and proceeds to EDL building
iff *every* issued slot operation settles successfully; any single slot
rejection — an image slot whose stock-footage fallback also fails, a direct
stock-footage search failure, or a speech-synthesis failure — propagates
through `Promise.all` and aborts the run before EDL building. Only the image
slot's *primary* failure is caught: when its fallback chain succeeds the slot
settles successfully with a `pexels-video` asset. -/
theorem orchestrate_completes_iff_all_slots_ok (p : Providers) (script : Script)
    (options : RenderOptions) (now : String) :
    (isOkB (orchestrateVideoGeneration p script options now) = true
       ↔ ∀ op ∈ assetOps p script, isOkB op = true)
    ∧ (∀ entries, promiseAll (assetOps p script) = Except.ok entries →
         orchestrateVideoGeneration p script options now
           = Except.ok
              { edl := buildEDL script entries options now,
                assetCount := entries.length,
                estimatedDuration :=
                  (buildEDL script entries options now).timeline.duration })
    ∧ (∀ e, promiseAll (assetOps p script) = Except.error e →
         orchestrateVideoGeneration p script options now = Except.error e)
    ∧ (∀ s : Scene, s.visualType = some "image" → strTruthy s.imagePrompt = true →
         ∀ err sel gcs, p.imagen (s.imagePrompt.getD ("")) = Except.error err →
         p.pexels (fallbackQuery s) s.duration = Except.ok sel →
         p.download sel.url = Except.ok gcs →
         visualSlotOp p s = some (Except.ok ("visual_" ++ s.id,
           { type := "pexels-video", source := gcs, duration := none,
             prompt := none, searchQuery := some (fallbackQuery s) }))) := by
  refine ⟨?_, ?_, ?_, ?_⟩
  · unfold orchestrateVideoGeneration
    rw [← promiseAll_isOk_iff]
    rcases hr : promiseAll (assetOps p script) with e | entries <;>
      simp [isOkB]
  · intro entries he
    unfold orchestrateVideoGeneration
    rw [he]
  · intro e he
    unfold orchestrateVideoGeneration
    rw [he]
  · intro s h1 h2 err sel gcs hi hp hdl
    unfold visualSlotOp
    simp [h1, h2, hi, hp, hdl]

/-- Witness for C1 at a concrete input: with providers where every call
succeeds, the orchestration of a one-scene script settles successfully. -/
theorem orchestrate_completes_witness :
    isOkB (orchestrateVideoGeneration provGood scriptW optsNone ("T")) = true :=
  (orchestrate_completes_iff_all_slots_ok provGood scriptW optsNone ("T")).1.mpr
    (by decide)

/-- C1 (counterexample): one scene whose image generation fails and whose
stock-footage fallback also fails aborts the whole orchestration (the result
is the rejection, and `buildEDL` is never reached), even though the sibling
narration slots settled successfully (`map isOkB = [false, true, true]`). -/
theorem orchestrate_aborts_on_exhausted_fallback :
    orchestrateVideoGeneration provFail failScript optsNone ("T")
      = Except.error ("No Pexels videos found for query: cats")
    ∧ (assetOps provFail failScript).map isOkB = [false, true, true] := by
  constructor <;> rfl

/-- C2 (code bug): no input ever places a fade filter in the constructed
ffmpeg command — the fade filters are computed into the local `videoFilters`
array exactly as the claim describes them (`fade in` at `st=0`, `fade out` at
`st = duration - fadeDuration`, shown at a concrete clip of duration 10 with
an `in` dissolve and an `out` fade), but that array is never attached to the
command (`entrypoint.js:198-209` is dead code). -/
theorem renderClip_fade_filters_never_reach_command :
    (∀ (clip : Clip) (asset : Asset) (assetPath outputPath : String)
       (os : OutputSettings),
       ((renderClip clip asset assetPath outputPath os).1.complexFilter.all
         (fun f => !(f.isFade))) = true)
    ∧ (renderClip fadeClip imgAssetW ("in.png") ("out.mp4") osW).2
        = [VFilter.fade true 0 (1/2), VFilter.fade false (19/2) (1/2)] := by
  constructor
  · intro clip asset assetPath outputPath os
    unfold renderClip
    rcases hk : findKenBurns clip.effects with _ | params <;>
      by_cases h1 : (asset.type == "generated-image" || asset.type == "image") = true <;>
      by_cases h2 : (asset.type == "pexels-video" || asset.type == "video") = true <;>
      simp [hk, h1, h2, VFilter.isFade]
  · norm_num +decide [renderClip, renderClipVideoFilters, fadeClip, truthyOrQ]

/-- C7 (amended): the zoom expression interpolates `startZoom→endZoom` under
the full four-law easing family, but the pan expressions follow the zoom's
easing only for `ease-in-out`; for `linear`, `ease-in` and `ease-out` (and
any unrecognized value) the pan interpolates linearly, scaled by half the
frame width/height. -/
theorem kenBurns_pan_easing_characterization (r : KBResolved) (w h d t : ℝ) :
    zoomExprFun r d t
      = (r.startZoom : ℝ) + ((r.endZoom : ℝ) - (r.startZoom : ℝ)) * easeProgress r.easing d t
    ∧ panXExprFun r w d t
      = (r.startX : ℝ) * w / 2 + ((r.endX : ℝ) - (r.startX : ℝ)) * w / 2 *
          (if r.easing == "ease-in-out" then easeProgress r.easing d t
           else t / d)
    ∧ panYExprFun r h d t
      = (r.startY : ℝ) * h / 2 + ((r.endY : ℝ) - (r.startY : ℝ)) * h / 2 *
          (if r.easing == "ease-in-out" then easeProgress r.easing d t
           else t / d) := by
  unfold zoomExprFun panXExprFun panYExprFun easeProgress
  refine ⟨?_, ?_, ?_⟩ <;> split_ifs <;> ring

/-- C7 (counterexample): under `ease-in` easing with a full `0→1` X pan
(frame width 2, duration 1), the code's pan at `t = 1/2` is the linear value
`1/2`, while interpolating under the same easing law as the zoom (quadratic
in) would give `1/4`. -/
theorem kenBurns_pan_not_same_easing_for_ease_in :
    panXExprFun (kbResolve easeInParams) 2 1 (1/2) = 1/2
    ∧ panXSameEasing (kbResolve easeInParams) 2 1 (1/2) = 1/4
    ∧ ((1 : ℝ)/2) ≠ 1/4 := by
  refine ⟨?_, ?_, by norm_num⟩
  · norm_num +decide [panXExprFun, kbResolve, easeInParams]
  · norm_num +decide [panXSameEasing, easeProgress, kbResolve, easeInParams]

/-- C8 (amended): the Ken Burns effect math is total and all inputs default
safely, but *its* missing-zoom default is a `1.0→1.2` zoom-in
(`entrypoint.js:101`), with missing pan defaulting to zero pan; the
`1.0→1.15` default belongs to the EDL builder, which applies it when a scene
declares no `kenBurns` effect (`controller.js:348`). -/
theorem kenBurns_defaults_behaviour :
    kbResolve emptyKBParams
      = { startZoom := 1, endZoom := 6/5, startX := 0, startY := 0,
          endX := 0, endY := 0, easing := "linear" }
    ∧ (∀ w d t : ℝ, panXExprFun (kbResolve emptyKBParams) w d t = 0)
    ∧ (∀ h d t : ℝ, panYExprFun (kbResolve emptyKBParams) h d t = 0)
    ∧ (∀ d : ℝ, d ≠ 0 →
         zoomExprFun (kbResolve emptyKBParams) d 0 = 1
         ∧ zoomExprFun (kbResolve emptyKBParams) d d = 6/5)
    ∧ (∀ s : Scene, s.kenBurns = none →
         builderKenBurnsParams s
           = { startZoom := some 1, endZoom := some (23/20), startX := some 0,
               startY := some 0, endX := some 0, endY := some 0,
               easing := some "ease-in-out" }) := by
  refine ⟨rfl, ?_, ?_, ?_, ?_⟩
  · intro w d t
    norm_num +decide [panXExprFun, kbResolve, emptyKBParams]
  · intro h d t
    norm_num +decide [panYExprFun, kbResolve, emptyKBParams]
  · intro d hd
    constructor
    · norm_num +decide [zoomExprFun, kbResolve, emptyKBParams]
    · norm_num +decide [zoomExprFun, kbResolve, emptyKBParams]
      field_simp
      ring
  · intro s hk
    simp [builderKenBurnsParams, hk, truthyOrQ]

/-- Witness for C8 at concrete inputs: a scene with no declared `kenBurns`
gets the builder's `1.0→1.15` params, and the effect-math default zoom
reaches `1.2 = 6/5` at `t = duration = 1`. -/
theorem kenBurns_defaults_witness :
    builderKenBurnsParams sceneW
      = { startZoom := some 1, endZoom := some (23/20), startX := some 0,
          startY := some 0, endX := some 0, endY := some 0,
          easing := some "ease-in-out" }
    ∧ zoomExprFun (kbResolve emptyKBParams) 1 1 = 6/5 :=
  ⟨kenBurns_defaults_behaviour.2.2.2.2 sceneW rfl,
   (kenBurns_defaults_behaviour.2.2.2.1 1 one_ne_zero).2⟩

/-- C8 (counterexample): the effect math's missing-zoom default is
`endZoom = 1.2`, not the claimed `1.15`. -/
theorem kenBurns_effect_math_endZoom_not_1_15 :
    (kbResolve emptyKBParams).endZoom = 6/5 ∧ ((6 : ℚ)/5) ≠ 23/20 :=
  ⟨rfl, by norm_num⟩

/-- C9 (amended): the selection is the first video whose duration meets the
requested minimum, else (the floor being advisory) the first returned video;
among that video's encodes the first `hd`-quality one is preferred, else the
first encode. The search fails iff the provider returns zero results *or*
the selected video exposes zero encodes (in which case the `.link` access on
`undefined` throws rather than returning a selection). -/
theorem searchPexelsVideo_selection_policy (query : String)
    (resp : List PexelsVideo) (minDuration : ℚ) :
    searchPexelsVideo query resp minDuration =
      match (resp.find? (fun v => decide (minDuration ≤ v.duration))).orElse
          (fun _ => resp.head?) with
      | none => Except.error ("No Pexels videos found for query: " ++ query)
      | some video =>
        match pickVideoFile video with
        | none => Except.error ("TypeError: cannot read property of undefined (video_files is empty)")
        | some hdFile =>
          Except.ok
            { id := video.id, url := hdFile.link, duration := video.duration,
              width := hdFile.width, height := hdFile.height } := by
  simp only [searchPexelsVideo]
  rw [← head_filter_eq_find]
  rcases hf : resp.filter (fun v => decide (minDuration ≤ v.duration)) with _ | ⟨v, vs⟩
  · rw [hf]
    cases resp <;> simp [Option.orElse]
  · rw [hf]
    simp [Option.orElse]

/-- C9 (counterexample): a non-empty provider response whose (only) video
meets the duration floor but has an empty encode list makes the search fail,
so “fails iff the provider returns zero results” does not hold. -/
theorem searchPexels_fails_on_video_without_encodes :
    searchPexelsVideo ("nature") [noEncodesVideo] 5
      = Except.error ("TypeError: cannot read property of undefined (video_files is empty)")
    ∧ ([noEncodesVideo] : List PexelsVideo) ≠ [] := by
  constructor
  · norm_num +decide [searchPexelsVideo, pickVideoFile, noEncodesVideo, List.filter]
  · simp

end HVO
